import Mathlib

/-!
Shallow embedding of the transport layer of the `lightyear` networking
crate (files `src/lightyear/src/transport/io.rs` and
`src/lightyear/src/transport/websocket/server.rs`), together with proofs
of the claims about it.

Modelling conventions:
- byte payloads are `List Nat`;
- Rust `Result<T>` is `Except TError T`;
- tokio unbounded channels are a pending queue plus a disconnected flag;
- a Rust panic (out-of-bounds slice, `copy_from_slice` mismatch) is the
  `none` case of an `Option`-returning operation;
- the boxed close callback `BoxedCloseFn` is modelled by the `Result` it
  would return when invoked, and `Io.close` additionally reports how many
  times the callback was invoked during that call (0 or 1), so that
  invocation counting is part of the state-transition semantics.
-/

namespace Lightyear

/-- Socket address: an opaque comparable identifier (ip, port). -/
structure SocketAddr where
  ip : Nat
  port : Nat
deriving DecidableEq

/-- Transport error type (`transport::error::Error`), collapsed to the
variants the embedded code constructs. -/
inductive TError where
  | webSocket (msg : String)
  | other (msg : String)
deriving DecidableEq

/-- Rust `Result<T>` with the transport error type. -/
abbrev Result (α : Type) : Type := Except TError α

/-- Traffic counters of the Io facade (`IoStats` in io.rs). -/
structure IoStats where
  bytes_sent : Nat
  bytes_received : Nat
  packets_sent : Nat
  packets_received : Nat
deriving DecidableEq

/-- `IoStats::default()`: all counters zero. -/
def IoStats.default : IoStats := ⟨0, 0, 0, 0⟩

/-- Connection state of the Io facade (`IoState` in io.rs). -/
inductive IoState where
  | Connecting
  | Connected
  | Disconnected
deriving DecidableEq

/-- WebSocket messages (`tungstenite::Message`), collapsed to the variants
the embedded code distinguishes: `Binary` and `Close` are matched
explicitly, everything else falls into the wildcard arm. -/
inductive Message where
  | Binary (buf : List Nat)
  | Close (frame : Option String)
  | Text (s : String)
  | Ping (buf : List Nat)
deriving DecidableEq

/-- Sending half of a tokio unbounded channel: the queue of pending
messages plus whether the receiving half has been dropped. -/
structure UnboundedSender (α : Type) where
  queue : List α
  closed : Bool
deriving DecidableEq

/-- `UnboundedSender::send`: enqueue, or fail when the receiver is gone. -/
def UnboundedSender.send (tx : UnboundedSender α) (msg : α) :
    UnboundedSender α × Except String Unit :=
  if tx.closed then (tx, Except.error "channel closed")
  else ({ tx with queue := tx.queue ++ [msg] }, Except.ok ())

/-- Error cases of `UnboundedReceiver::try_recv`. -/
inductive TryRecvError where
  | Empty
  | Disconnected
deriving DecidableEq

/-- Receiving half of a tokio unbounded channel. -/
structure UnboundedReceiver (α : Type) where
  pending : List α
  disconnected : Bool
deriving DecidableEq

/-- `UnboundedReceiver::try_recv`: non-blocking poll of the queue. -/
def UnboundedReceiver.try_recv (rx : UnboundedReceiver α) :
    UnboundedReceiver α × Except TryRecvError α :=
  match rx.pending with
  | x :: rest => ({ rx with pending := rest }, Except.ok x)
  | [] =>
      (rx, Except.error (if rx.disconnected then TryRecvError.Disconnected
                         else TryRecvError.Empty))

/-- Lookup in the address-keyed map (hashbrown `HashMap::get`), modelled
on an association list. -/
def mapGet (m : List (SocketAddr × β)) (a : SocketAddr) : Option β :=
  match m with
  | [] => none
  | (k, v) :: rest => if k = a then some v else mapGet rest a

/-- `HashMap::insert`: replace the entry for the key, or add it. -/
def mapSet (m : List (SocketAddr × β)) (a : SocketAddr) (v : β) :
    List (SocketAddr × β) :=
  match m with
  | [] => [(a, v)]
  | (k, w) :: rest => if k = a then (a, v) :: rest else (k, w) :: mapSet rest a v

/-- `HashMap::remove`: drop the entry for the key (first occurrence; a
hash map holds at most one entry per key). -/
def mapRemove (m : List (SocketAddr × β)) (a : SocketAddr) :
    List (SocketAddr × β) :=
  match m with
  | [] => []
  | (k, w) :: rest => if k = a then rest else (k, w) :: mapRemove rest a

/-- The `PacketSender` trait: `send(payload, address) -> Result<()>`,
threading the sender's state explicitly. -/
class PacketSender (σ : Type) where
  send : σ → List Nat → SocketAddr → σ × Result Unit

/-- The `PacketReceiver` trait: `recv() -> Result<Option<(bytes, source)>>`.
The outer `Option` is `none` when the call panics (models Rust panics; a
normal return is `some`). -/
class PacketReceiver (σ : Type) where
  recv : σ → Option (σ × Result (Option (List Nat × SocketAddr)))

/-- Client-side io events (`ClientIoEvent` in io.rs); carried by `Io` but
not consulted by any of the operations under study. -/
inductive ClientIoEvent where
  | Connected
  | Disconnected (e : TError)
deriving DecidableEq

/-- The Io facade (`Io` in io.rs), generic over the underlying boxed
sender and receiver states. -/
structure Io (σs σr : Type) where
  local_addr : SocketAddr
  sender : σs
  receiver : σr
  close_fn : Option (Result Unit)
  state : IoState
  event_receiver : Option (List ClientIoEvent)
  stats : IoStats

/-- `Io::split`: returns the two halves, namely the raw underlying sender
and receiver components (`(&mut self.sender, &mut self.receiver)`). -/
def Io.split (io : Io σs σr) : σs × σr := (io.sender, io.receiver)

/-- `Io::close`: set the state to `Disconnected`, take the close callback
out of the struct and invoke it if present (propagating its error with
`?`). The third component reports how many times the callback was invoked
during this call. -/
def Io.close (io : Io σs σr) : Io σs σr × Result Unit × Nat :=
  match io.close_fn with
  | some f =>
      ({ io with state := IoState.Disconnected, close_fn := none }, f, 1)
  | none =>
      ({ io with state := IoState.Disconnected, close_fn := none },
       Except.ok (), 0)

/-- `impl PacketSender for Io`: increment `bytes_sent` and `packets_sent`,
then delegate to the underlying sender and return its result. -/
def Io.send [PacketSender σs] (io : Io σs σr) (payload : List Nat)
    (address : SocketAddr) : Io σs σr × Result Unit :=
  ({ io with
      sender := (PacketSender.send io.sender payload address).1,
      stats := { io.stats with
        bytes_sent := io.stats.bytes_sent + payload.length,
        packets_sent := io.stats.packets_sent + 1 } },
   (PacketSender.send io.sender payload address).2)

/-- Stats update performed by `impl PacketReceiver for Io`: counters move
only when the delegated call returned `Ok(Some(..))`. -/
def recvStats (stats : IoStats)
    (res : Result (Option (List Nat × SocketAddr))) : IoStats :=
  match res with
  | Except.ok (some (buf, _)) =>
      { stats with
        bytes_received := stats.bytes_received + buf.length,
        packets_received := stats.packets_received + 1 }
  | _ => stats

/-- `impl PacketReceiver for Io`: delegate to the underlying receiver and
update the stats on a received packet. -/
def Io.recv [PacketReceiver σr] (io : Io σs σr) :
    Option (Io σs σr × Result (Option (List Nat × SocketAddr))) :=
  match PacketReceiver.recv io.receiver with
  | none => none
  | some (r2, res) =>
      some ({ io with receiver := r2, stats := recvStats io.stats res }, res)

/-- Sender side of the websocket server transport
(`WebSocketServerSocketSender` in server.rs): the server address and the
shared address-to-outbound-channel map. -/
structure WebSocketServerSocketSender where
  server_addr : SocketAddr
  addr_to_clientbound_tx : List (SocketAddr × UnboundedSender Message)
deriving DecidableEq

/-- `impl PacketSender for WebSocketServerSocketSender`: look the
destination up in the map; if present, enqueue a `Binary` message on its
channel (mapping a channel failure to a websocket error); if absent,
return `Ok(())` without touching anything ("consider that if the channel
does not exist, it is because the connection was closed"). -/
def WebSocketServerSocketSender.send (s : WebSocketServerSocketSender)
    (payload : List Nat) (address : SocketAddr) :
    WebSocketServerSocketSender × Result Unit :=
  match mapGet s.addr_to_clientbound_tx address with
  | some tx =>
      match UnboundedSender.send tx (Message.Binary payload) with
      | (tx2, Except.ok ()) =>
          ({ s with addr_to_clientbound_tx :=
              mapSet s.addr_to_clientbound_tx address tx2 },
           Except.ok ())
      | (tx2, Except.error e) =>
          ({ s with addr_to_clientbound_tx :=
              mapSet s.addr_to_clientbound_tx address tx2 },
           Except.error (TError.webSocket
             ("unable to send message to client: " ++ e)))
  | none => (s, Except.ok ())

instance : PacketSender WebSocketServerSocketSender :=
  ⟨WebSocketServerSocketSender.send⟩

/-- Receiver side of the websocket server transport
(`WebSocketServerSocketReceiver` in server.rs): a reusable buffer of
length MTU, the server address and the shared serverbound channel. -/
structure WebSocketServerSocketReceiver where
  buffer : List Nat
  server_addr : SocketAddr
  serverbound_rx : UnboundedReceiver (SocketAddr × Message)
deriving DecidableEq

/-- The in-bounds copy `self.buffer[..buf.len()].copy_from_slice(&buf)`:
replaces the first `buf.length` bytes of the buffer. Returns `none` (a
panic) when the message is longer than the buffer. -/
def copyInto (buffer : List Nat) (buf : List Nat) : Option (List Nat) :=
  if buf.length ≤ buffer.length then some (buf ++ buffer.drop buf.length)
  else none

/-- `impl PacketReceiver for WebSocketServerSocketReceiver`: non-blocking
`try_recv` on the shared channel; a `Binary` message is copied into the
reusable buffer and returned as a borrowed slice with the peer address; a
`Close` frame and any other message kind yield `Ok(None)`; an empty
channel yields `Ok(None)`; a disconnected channel is a real error. The
outer `none` is the panic of an out-of-bounds copy. -/
def WebSocketServerSocketReceiver.recv (r : WebSocketServerSocketReceiver) :
    Option (WebSocketServerSocketReceiver ×
            Result (Option (List Nat × SocketAddr))) :=
  match UnboundedReceiver.try_recv r.serverbound_rx with
  | (rx2, Except.ok (addr, msg)) =>
      match msg with
      | Message.Binary buf =>
          match copyInto r.buffer buf with
          | some newBuffer =>
              some ({ r with buffer := newBuffer, serverbound_rx := rx2 },
                    Except.ok (some (newBuffer.take buf.length, addr)))
          | none => none
      | Message.Close _ =>
          some ({ r with serverbound_rx := rx2 }, Except.ok none)
      | _ => some ({ r with serverbound_rx := rx2 }, Except.ok none)
  | (rx2, Except.error TryRecvError.Empty) =>
      some ({ r with serverbound_rx := rx2 }, Except.ok none)
  | (rx2, Except.error TryRecvError.Disconnected) =>
      some ({ r with serverbound_rx := rx2 },
            Except.error (TError.webSocket
              "unable to receive message from client: disconnected"))

instance : PacketReceiver WebSocketServerSocketReceiver :=
  ⟨WebSocketServerSocketReceiver.recv⟩

/-- The four diagnostic paths registered by `IoDiagnosticsPlugin`. -/
inductive DiagnosticPath where
  | BYTES_IN
  | BYTES_OUT
  | PACKETS_IN
  | PACKETS_OUT
deriving DecidableEq

/-- `IoDiagnosticsPlugin::update_diagnostics`, with wall-clock arithmetic
over ℚ in place of f64: if the elapsed time is zero, return immediately;
otherwise add the four measurements — the byte counters are divided by
1000 (the paths are named "KB ... per second") and then by the elapsed
seconds, the packet counters only by the elapsed seconds — and reset the
stats to default. Returns the new stats and the measurements added. -/
def update_diagnostics (stats : IoStats) (delta_seconds : ℚ) :
    IoStats × List (DiagnosticPath × ℚ) :=
  if delta_seconds = 0 then (stats, [])
  else
    (IoStats.default,
     [(DiagnosticPath.BYTES_IN,
        ((stats.bytes_received : ℚ) / 1000) / delta_seconds),
      (DiagnosticPath.BYTES_OUT,
        ((stats.bytes_sent : ℚ) / 1000) / delta_seconds),
      (DiagnosticPath.PACKETS_IN,
        (stats.packets_received : ℚ) / delta_seconds),
      (DiagnosticPath.PACKETS_OUT,
        (stats.packets_sent : ℚ) / delta_seconds)])

/-- A trivial underlying transport sender (in the style of the repo's
local channel transport): records every payload it was asked to deliver
and always succeeds. Used to instantiate the generic `Io` facade. -/
structure LocalSender where
  sent : List (List Nat × SocketAddr)
deriving DecidableEq

instance : PacketSender LocalSender :=
  ⟨fun s payload address =>
    ({ sent := s.sent ++ [(payload, address)] }, Except.ok ())⟩

/-- A trivial underlying transport receiver: pops pending packets off a
queue, never errors, never panics. -/
structure LocalReceiver where
  pending : List (List Nat × SocketAddr)
deriving DecidableEq

instance : PacketReceiver LocalReceiver :=
  ⟨fun r =>
    match r.pending with
    | [] => some (r, Except.ok none)
    | x :: rest => some (⟨rest⟩, Except.ok (some x))⟩

/-- One operation performed through the halves returned by `Io::split`. -/
inductive SplitOp where
  | send (payload : List Nat) (address : SocketAddr)
  | recv

/-- Runs a sequence of send/receive calls through the two halves returned
by `Io.split`: each call mutates only the corresponding component of the
`Io` (exactly the borrows `(&mut self.sender, &mut self.receiver)` give
access to). `none` models a panic in an underlying receiver. -/
def runSplitOps [PacketSender σs] [PacketReceiver σr] (io : Io σs σr) :
    List SplitOp → Option (Io σs σr)
  | [] => some io
  | SplitOp.send p a :: rest =>
      runSplitOps { io with sender := (PacketSender.send io.sender p a).1 } rest
  | SplitOp.recv :: rest =>
      match PacketReceiver.recv io.receiver with
      | none => none
      | some (r2, _) => runSplitOps { io with receiver := r2 } rest

/-- The fresh clientbound channel created for an accepted peer
(`unbounded_channel::<Message>()` in the accept loop). -/
def freshTx : UnboundedSender Message := ⟨[], false⟩

/-- Map-mutation events performed by the server's accept-loop task
(`WebSocketServerSocketBuilder::connect` in server.rs): on accepting a
peer its channel is inserted into the shared map; when the race between
the peer's clientbound and serverbound tasks finishes, its entry is
removed. -/
inductive AcceptEvent where
  | accepted (addr : SocketAddr)
  | connClosed (addr : SocketAddr)
deriving DecidableEq

/-- Effect of one accept-loop event on the shared
address-to-outbound-channel map. -/
def applyEvent (m : List (SocketAddr × UnboundedSender Message)) :
    AcceptEvent → List (SocketAddr × UnboundedSender Message)
  | AcceptEvent.accepted a => mapSet m a freshTx
  | AcceptEvent.connClosed a => mapRemove m a

/-- Folds a sequence of accept-loop events over the shared map. -/
def runEvents (m : List (SocketAddr × UnboundedSender Message)) :
    List AcceptEvent → List (SocketAddr × UnboundedSender Message)
  | [] => m
  | e :: rest => runEvents (applyEvent m e) rest

/-- The map-event trace of the accept loop for a sequence of accepted
connections. The loop body awaits the race of the two per-peer tasks
before the next `accept`, so each connection contributes the consecutive
pair insert-then-remove. -/
def serverTrace : List SocketAddr → List AcceptEvent
  | [] => []
  | a :: rest =>
      AcceptEvent.accepted a :: AcceptEvent.connClosed a :: serverTrace rest

/-- Number of occurrences of an accept-loop event in a trace. -/
def countEv (e : AcceptEvent) : List AcceptEvent → Nat
  | [] => 0
  | x :: rest => (if x = e then 1 else 0) + countEv e rest

/-- Number of occurrences of an address in a connection sequence. -/
def countAddr (a : SocketAddr) : List SocketAddr → Nat
  | [] => 0
  | x :: rest => (if x = a then 1 else 0) + countAddr a rest

/-- Fixed peer address used by the concrete scenarios below. -/
def peerA : SocketAddr := ⟨1, 40000⟩

/-- Second fixed peer address used by the concrete scenarios below. -/
def peerB : SocketAddr := ⟨2, 40001⟩

/-- A freshly connected `Io` over the trivial local transport: zeroed
stats, no close callback, one pending inbound packet `[9, 9]`. -/
def localIo : Io LocalSender LocalReceiver :=
  { local_addr := ⟨0, 5000⟩
    sender := ⟨[]⟩
    receiver := ⟨[([9, 9], peerA)]⟩
    close_fn := none
    state := IoState.Connected
    event_receiver := none
    stats := IoStats.default }

/-- An `Io` wrapping the websocket server transport's sender: the
transport's `split` returns `None` for the close callback, so
`close_fn := none`. -/
def wsIo : Io WebSocketServerSocketSender LocalReceiver :=
  { local_addr := ⟨0, 5000⟩
    sender := { server_addr := ⟨0, 5000⟩, addr_to_clientbound_tx := [] }
    receiver := ⟨[]⟩
    close_fn := none
    state := IoState.Connected
    event_receiver := none
    stats := IoStats.default }

/-- The four rates exactly as the spec sentence words them: each counter
divided by the elapsed seconds, nothing else. Written from the spec for
comparison with `update_diagnostics`, which is written from the source. -/
def plainQuotientRates (stats : IoStats) (elapsed : ℚ) :
    List (DiagnosticPath × ℚ) :=
  [(DiagnosticPath.BYTES_IN, (stats.bytes_received : ℚ) / elapsed),
   (DiagnosticPath.BYTES_OUT, (stats.bytes_sent : ℚ) / elapsed),
   (DiagnosticPath.PACKETS_IN, (stats.packets_received : ℚ) / elapsed),
   (DiagnosticPath.PACKETS_OUT, (stats.packets_sent : ℚ) / elapsed)]

/-- The four rates with the byte counters first scaled to kilobytes (the
diagnostic paths are named "KB ... per second") and the packet counters
taken as plain quotients: the amended wording of claim C5. -/
def kilobyteScaledRates (stats : IoStats) (elapsed : ℚ) :
    List (DiagnosticPath × ℚ) :=
  [(DiagnosticPath.BYTES_IN, ((stats.bytes_received : ℚ) / 1000) / elapsed),
   (DiagnosticPath.BYTES_OUT, ((stats.bytes_sent : ℚ) / 1000) / elapsed),
   (DiagnosticPath.PACKETS_IN, (stats.packets_received : ℚ) / elapsed),
   (DiagnosticPath.PACKETS_OUT, (stats.packets_sent : ℚ) / elapsed)]

/-- Lookup finds nothing when the key is not among the map's keys. -/
theorem mapGet_eq_none (m : List (SocketAddr × β)) (a : SocketAddr)
    (h : a ∉ m.map Prod.fst) : mapGet m a = none := by
  induction m with
  | nil => rfl
  | cons p rest ih =>
      obtain ⟨k, w⟩ := p
      simp only [List.map_cons, List.mem_cons, not_or] at h
      have hk : ¬(k = a) := fun hh => h.1 hh.symm
      simp [mapGet, hk, ih h.2]

/-- Inserting a key makes it found, with the inserted value. -/
theorem mapGet_mapSet_self (m : List (SocketAddr × β)) (a : SocketAddr)
    (v : β) : mapGet (mapSet m a v) a = some v := by
  induction m with
  | nil => simp [mapSet, mapGet]
  | cons p rest ih =>
      obtain ⟨k, w⟩ := p
      by_cases hk : k = a
      · simp [mapSet, mapGet, hk]
      · simp [mapSet, mapGet, hk, ih]

/-- Inserting one key leaves every other key's lookup unchanged. -/
theorem mapGet_mapSet_ne (m : List (SocketAddr × β)) (a b : SocketAddr)
    (v : β) (hba : b ≠ a) : mapGet (mapSet m a v) b = mapGet m b := by
  induction m with
  | nil => simp [mapSet, mapGet, Ne.symm hba]
  | cons p rest ih =>
      obtain ⟨k, w⟩ := p
      by_cases hk : k = a
      · subst hk
        simp [mapSet, mapGet, Ne.symm hba]
      · by_cases hb : k = b
        · simp [mapSet, mapGet, hk, hb, hba]
        · simp [mapSet, mapGet, hk, hb, ih]

/-- Removing a key makes it unfindable, on maps with no duplicate keys
(the invariant a hash map maintains). -/
theorem mapGet_mapRemove_self (m : List (SocketAddr × β)) (a : SocketAddr)
    (hnd : (m.map Prod.fst).Nodup) : mapGet (mapRemove m a) a = none := by
  induction m with
  | nil => rfl
  | cons p rest ih =>
      obtain ⟨k, w⟩ := p
      simp only [List.map_cons, List.nodup_cons] at hnd
      by_cases hk : k = a
      · subst hk
        simp [mapRemove, mapGet_eq_none rest k hnd.1]
      · simp [mapRemove, mapGet, hk, ih hnd.2]

/-- Removing one key leaves every other key's lookup unchanged. -/
theorem mapGet_mapRemove_ne (m : List (SocketAddr × β)) (a b : SocketAddr)
    (hba : b ≠ a) : mapGet (mapRemove m a) b = mapGet m b := by
  induction m with
  | nil => rfl
  | cons p rest ih =>
      obtain ⟨k, w⟩ := p
      by_cases hk : k = a
      · subst hk
        simp [mapRemove, mapGet, Ne.symm hba]
      · by_cases hb : k = b
        · simp [mapRemove, mapGet, hk, hb, hba]
        · simp [mapRemove, mapGet, hk, hb, ih]

/-- The accept loop restores the map to empty after every completed
connection: the map has no stale entries between connections. -/
theorem runEvents_serverTrace_nil (done : List SocketAddr) :
    runEvents [] (serverTrace done) = [] := by
  induction done with
  | nil => rfl
  | cons a rest ih =>
      simpa [serverTrace, runEvents, applyEvent, mapSet, mapRemove] using ih

/-- Folding events distributes over trace concatenation. -/
theorem runEvents_append (m : List (SocketAddr × UnboundedSender Message))
    (l1 l2 : List AcceptEvent) :
    runEvents m (l1 ++ l2) = runEvents (runEvents m l1) l2 := by
  induction l1 generalizing m with
  | nil => rfl
  | cons e rest ih => simp [runEvents, ih]

/-- Each accepted connection contributes exactly one insert event for its
address to the accept-loop trace. -/
theorem countEv_serverTrace_accepted (done : List SocketAddr)
    (a : SocketAddr) :
    countEv (AcceptEvent.accepted a) (serverTrace done) = countAddr a done := by
  induction done with
  | nil => rfl
  | cons x rest ih => simp [serverTrace, countEv, countAddr, ih]

/-- Each accepted connection contributes exactly one remove event for its
address to the accept-loop trace. -/
theorem countEv_serverTrace_connClosed (done : List SocketAddr)
    (a : SocketAddr) :
    countEv (AcceptEvent.connClosed a) (serverTrace done) = countAddr a done := by
  induction done with
  | nil => rfl
  | cons x rest ih => simp [serverTrace, countEv, countAddr, ih]

/-- C1: the claim states that sends and receives performed through the
two halves returned by `Io::split` are counted in `IoStats`. Evaluating
the embedded code at a concrete sequence (one 4-byte send, one receive of
the pending 2-byte packet) shows the traffic flows through the underlying
transport but every counter stays zero — the split halves are the raw
underlying sender/receiver and bypass the stats-updating `Io`
implementations (the source marks this with "TODO: no stats are being
computed here!"). The claim expects counters `⟨4, 2, 1, 1⟩`. -/
theorem split_halves_bypass_io_stats :
    runSplitOps localIo [SplitOp.send [1, 2, 3, 4] peerA, SplitOp.recv] =
      some { localIo with sender := ⟨[([1, 2, 3, 4], peerA)]⟩,
                          receiver := ⟨[]⟩ } ∧
    (runSplitOps localIo [SplitOp.send [1, 2, 3, 4] peerA,
        SplitOp.recv]).map Io.stats = some IoStats.default ∧
    IoStats.default ≠ ⟨4, 2, 1, 1⟩ :=
  ⟨rfl, rfl, by decide⟩

/-- C2 counterexample: an `Io` backed by the websocket server transport
(whose `split` yields no close callback). After `close()` the state is
`Disconnected`, yet a subsequent `send` returns `Ok(())` — refuting the
claim that every send after close returns an error. -/
theorem send_after_close_succeeds_cex :
    (Io.close wsIo).1.state = IoState.Disconnected ∧
    ((Io.close wsIo).1.send [1, 2, 3] peerA).2 = Except.ok () :=
  ⟨rfl, rfl⟩

/-- C2 amended: `Io::close` only sets the state to `Disconnected` and
clears the close callback; `send` and `recv` never consult the state,
so after close they delegate to the underlying transport exactly as
before — their results coincide with the results of the same calls on the
un-closed `Io`. -/
theorem close_does_not_guard_send_recv {σs σr : Type} [PacketSender σs]
    [PacketReceiver σr] (io : Io σs σr) (payload : List Nat)
    (address : SocketAddr) :
    (io.close).1 = { io with state := IoState.Disconnected,
                             close_fn := none } ∧
    (((io.close).1).send payload address).2 = (io.send payload address).2 ∧
    Option.map Prod.snd ((io.close).1).recv = Option.map Prod.snd io.recv := by
  have hclose : (io.close).1 =
      { io with state := IoState.Disconnected, close_fn := none } := by
    cases h : io.close_fn <;> simp [Io.close, h]
  refine ⟨hclose, ?_, ?_⟩
  · rw [hclose]
    rfl
  · rw [hclose]
    cases hr : PacketReceiver.recv io.receiver with
    | none => simp [Io.recv, hr]
    | some pr =>
        obtain ⟨r2, res⟩ := pr
        simp [Io.recv, hr]

/-- C3: sending to a destination with no entry in the shared
address-to-outbound-channel map returns `Ok(())` and leaves the sender —
map included — completely unchanged, enqueueing nothing anywhere. -/
theorem ws_send_unknown_dest_noop (s : WebSocketServerSocketSender)
    (payload : List Nat) (address : SocketAddr)
    (h : mapGet s.addr_to_clientbound_tx address = none) :
    WebSocketServerSocketSender.send s payload address = (s, Except.ok ()) := by
  simp [WebSocketServerSocketSender.send, h]

/-- Witness for C3 at a concrete sender with an empty map. -/
theorem ws_send_unknown_dest_noop_witness :
    mapGet (WebSocketServerSocketSender.mk ⟨0, 5000⟩
        []).addr_to_clientbound_tx peerA = none ∧
    WebSocketServerSocketSender.send (WebSocketServerSocketSender.mk ⟨0, 5000⟩ [])
        [1, 2, 3] peerA =
      (WebSocketServerSocketSender.mk ⟨0, 5000⟩ [], Except.ok ()) :=
  ⟨rfl, ws_send_unknown_dest_noop _ _ _ rfl⟩

/-- C4: one `close()` leaves the state `Disconnected` and invokes the
close callback exactly once when present (zero times when absent); a
second `close()` changes nothing, invokes the callback zero further
times, and returns `Ok(())` — close is idempotent in effect and, being a
total function of the state, never panics. -/
theorem io_close_idempotent {σs σr : Type} (io : Io σs σr) :
    (io.close).1.state = IoState.Disconnected ∧
    (io.close).2.2 = (if io.close_fn.isSome then 1 else 0) ∧
    ((io.close).1.close).1 = (io.close).1 ∧
    ((io.close).1.close).2.2 = 0 ∧
    ((io.close).1.close).2.1 = Except.ok () := by
  cases h : io.close_fn <;> simp [Io.close, h]

/-- C5 counterexample: at `bytes_received = 2000` and one elapsed second,
the sampler records a bytes-in rate of `2` (kilobytes per second), not
the plain quotient `2000` the claim demands. -/
theorem byte_rate_is_kilobytes_cex :
    (update_diagnostics ⟨0, 2000, 0, 0⟩ 1).2 ≠
      plainQuotientRates ⟨0, 2000, 0, 0⟩ 1 := by
  norm_num [update_diagnostics, plainQuotientRates]

/-- C5 amended: for every stats snapshot and positive elapsed time, the
sampler records the packet rates as plain quotients, but the byte rates
as the counters divided by 1000 (kilobytes) and then by the elapsed
seconds. -/
theorem update_diagnostics_rates (stats : IoStats) (d : ℚ) (h : 0 < d) :
    (update_diagnostics stats d).2 = kilobyteScaledRates stats d := by
  simp [update_diagnostics, kilobyteScaledRates, h.ne']

/-- Witness for C5 at `bytes_sent = 2000` and two elapsed seconds. -/
theorem update_diagnostics_rates_witness :
    (0 : ℚ) < 2 ∧
    (update_diagnostics ⟨2000, 0, 0, 0⟩ 2).2 =
      kilobyteScaledRates ⟨2000, 0, 0, 0⟩ 2 :=
  ⟨by norm_num, update_diagnostics_rates ⟨2000, 0, 0, 0⟩ 2 (by norm_num)⟩

/-- C6: a zero elapsed-time sample is a complete no-op (stats unchanged,
no measurements added); a non-zero sample resets the counters to the
default (all zero), so an immediately following sample with no
intervening traffic records all four rates as zero. -/
theorem update_diagnostics_zero_guard_and_reset (stats : IoStats)
    (d d2 : ℚ) (h : d ≠ 0) (h2 : d2 ≠ 0) :
    update_diagnostics stats 0 = (stats, []) ∧
    (update_diagnostics stats d).1 = IoStats.default ∧
    (update_diagnostics IoStats.default d2).2 =
      [(DiagnosticPath.BYTES_IN, 0), (DiagnosticPath.BYTES_OUT, 0),
       (DiagnosticPath.PACKETS_IN, 0), (DiagnosticPath.PACKETS_OUT, 0)] := by
  refine ⟨by simp [update_diagnostics], by simp [update_diagnostics, h], ?_⟩
  simp [update_diagnostics, h2, IoStats.default]

/-- Witness for C6 at concrete stats `⟨1, 2, 3, 4⟩` and elapsed times 1
and 2. -/
theorem update_diagnostics_zero_guard_and_reset_witness :
    (1 : ℚ) ≠ 0 ∧ (2 : ℚ) ≠ 0 ∧
    (update_diagnostics ⟨1, 2, 3, 4⟩ 0 = (⟨1, 2, 3, 4⟩, []) ∧
     (update_diagnostics ⟨1, 2, 3, 4⟩ 1).1 = IoStats.default ∧
     (update_diagnostics IoStats.default 2).2 =
       [(DiagnosticPath.BYTES_IN, 0), (DiagnosticPath.BYTES_OUT, 0),
        (DiagnosticPath.PACKETS_IN, 0), (DiagnosticPath.PACKETS_OUT, 0)]) :=
  ⟨by norm_num, by norm_num,
   update_diagnostics_zero_guard_and_reset ⟨1, 2, 3, 4⟩ 1 2
     (by norm_num) (by norm_num)⟩

/-- C7: the websocket server receiver's `recv` (a non-blocking `try_recv`
poll by construction) returns `Ok(None)` on an empty channel, `Ok(None)`
on a pending protocol `Close` frame (normal termination, the frame is
consumed), and a hard error when the channel itself is disconnected. -/
theorem ws_recv_classification (buffer : List Nat) (sa addr : SocketAddr)
    (frame : Option String) (rest : List (SocketAddr × Message)) (d : Bool) :
    WebSocketServerSocketReceiver.recv ⟨buffer, sa, ⟨[], false⟩⟩ =
      some (⟨buffer, sa, ⟨[], false⟩⟩, Except.ok none) ∧
    WebSocketServerSocketReceiver.recv
        ⟨buffer, sa, ⟨(addr, Message.Close frame) :: rest, d⟩⟩ =
      some (⟨buffer, sa, ⟨rest, d⟩⟩, Except.ok none) ∧
    WebSocketServerSocketReceiver.recv ⟨buffer, sa, ⟨[], true⟩⟩ =
      some (⟨buffer, sa, ⟨[], true⟩⟩,
            Except.error (TError.webSocket
              "unable to receive message from client: disconnected")) :=
  ⟨rfl, rfl, rfl⟩

/-- C8: when the pending binary message fits the receiver's fixed buffer
(length at most MTU, the in-bounds precondition), `recv` does not panic:
the copy stays in bounds and the call returns `Ok(Some((slice, addr)))`
where the slice is exactly the message's bytes and `addr` the
originating peer. -/
theorem ws_recv_binary_within_mtu (r : WebSocketServerSocketReceiver)
    (addr : SocketAddr) (buf : List Nat)
    (rest : List (SocketAddr × Message)) (d : Bool)
    (h : buf.length ≤ r.buffer.length) :
    WebSocketServerSocketReceiver.recv
        { r with serverbound_rx := ⟨(addr, Message.Binary buf) :: rest, d⟩ } =
      some ({ buffer := buf ++ r.buffer.drop buf.length,
              server_addr := r.server_addr,
              serverbound_rx := ⟨rest, d⟩ },
            Except.ok (some (buf, addr))) := by
  simp [WebSocketServerSocketReceiver.recv, UnboundedReceiver.try_recv,
        copyInto, h, List.take_left]

/-- Witness for C8: a 2-byte message received into a 4-byte buffer. -/
theorem ws_recv_binary_within_mtu_witness :
    ([7, 8] : List Nat).length ≤ ([0, 0, 0, 0] : List Nat).length ∧
    WebSocketServerSocketReceiver.recv
        ⟨[0, 0, 0, 0], ⟨0, 5000⟩, ⟨[(peerA, Message.Binary [7, 8])], false⟩⟩ =
      some (⟨[7, 8, 0, 0], ⟨0, 5000⟩, ⟨[], false⟩⟩,
            Except.ok (some ([7, 8], peerA))) :=
  ⟨by decide,
   by
     have h := ws_recv_binary_within_mtu ⟨[0, 0, 0, 0], ⟨0, 5000⟩, ⟨[], false⟩⟩
       peerA [7, 8] [] false (by decide)
     simpa using h⟩

/-- C9: over the accept-loop trace semantics — each accepted connection
inserts its address into the shared map and removes it when the race of
its two per-peer tasks finishes — the map is empty after every completed
connection (no stale entries), holds exactly the live peer's entry while
its connection task runs, each connection contributes exactly one insert
and exactly one remove for its address, and inserting or removing peer
`a` never alters the lookup of any other peer `b`. -/
theorem peer_map_entry_lifecycle (done : List SocketAddr)
    (a b : SocketAddr) (m : List (SocketAddr × UnboundedSender Message))
    (hba : b ≠ a) (hnd : (m.map Prod.fst).Nodup) :
    runEvents [] (serverTrace done) = [] ∧
    runEvents [] (serverTrace done ++ [AcceptEvent.accepted a]) =
      [(a, freshTx)] ∧
    mapGet (applyEvent m (AcceptEvent.accepted a)) a = some freshTx ∧
    mapGet (applyEvent m (AcceptEvent.connClosed a)) a = none ∧
    mapGet (applyEvent m (AcceptEvent.connClosed a)) b = mapGet m b ∧
    mapGet (applyEvent m (AcceptEvent.accepted a)) b = mapGet m b ∧
    countEv (AcceptEvent.accepted a) (serverTrace done) = countAddr a done ∧
    countEv (AcceptEvent.connClosed a) (serverTrace done) = countAddr a done := by
  refine ⟨runEvents_serverTrace_nil done, ?_,
    mapGet_mapSet_self m a freshTx, mapGet_mapRemove_self m a hnd,
    mapGet_mapRemove_ne m a b hba, mapGet_mapSet_ne m a b freshTx hba,
    countEv_serverTrace_accepted done a,
    countEv_serverTrace_connClosed done a⟩
  rw [runEvents_append, runEvents_serverTrace_nil]
  rfl

/-- Witness for C9: two sequential connections from `peerA` and `peerB`,
with `peerB`'s entry present while `peerA`'s connection closes. -/
theorem peer_map_entry_lifecycle_witness :
    peerB ≠ peerA ∧
    (([(peerB, freshTx)].map Prod.fst).Nodup) ∧
    (runEvents [] (serverTrace [peerA, peerB]) = [] ∧
     runEvents [] (serverTrace [peerA, peerB] ++ [AcceptEvent.accepted peerA]) =
       [(peerA, freshTx)] ∧
     mapGet (applyEvent [(peerB, freshTx)] (AcceptEvent.accepted peerA)) peerA =
       some freshTx ∧
     mapGet (applyEvent [(peerB, freshTx)] (AcceptEvent.connClosed peerA)) peerA =
       none ∧
     mapGet (applyEvent [(peerB, freshTx)] (AcceptEvent.connClosed peerA)) peerB =
       mapGet [(peerB, freshTx)] peerB ∧
     mapGet (applyEvent [(peerB, freshTx)] (AcceptEvent.accepted peerA)) peerB =
       mapGet [(peerB, freshTx)] peerB ∧
     countEv (AcceptEvent.accepted peerA) (serverTrace [peerA, peerB]) =
       countAddr peerA [peerA, peerB] ∧
     countEv (AcceptEvent.connClosed peerA) (serverTrace [peerA, peerB]) =
       countAddr peerA [peerA, peerB]) :=
  ⟨by decide, by decide,
   peer_map_entry_lifecycle [peerA, peerB] peerA peerB [(peerB, freshTx)]
     (by decide) (by decide)⟩

/-- C10: `Io::send` increments `bytes_sent` by the payload length and
`packets_sent` by one, leaves the receive counters alone, and returns
whatever the underlying sender returned — so the counters are updated
even when the delegated send fails: accounting counts attempted sends. -/
theorem io_send_counts_attempts {σs σr : Type} [PacketSender σs]
    (io : Io σs σr) (payload : List Nat) (address : SocketAddr) :
    (io.send payload address).1.stats.bytes_sent =
      io.stats.bytes_sent + payload.length ∧
    (io.send payload address).1.stats.packets_sent =
      io.stats.packets_sent + 1 ∧
    (io.send payload address).1.stats.bytes_received =
      io.stats.bytes_received ∧
    (io.send payload address).1.stats.packets_received =
      io.stats.packets_received ∧
    (io.send payload address).2 =
      (PacketSender.send io.sender payload address).2 :=
  ⟨rfl, rfl, rfl, rfl, rfl⟩

end Lightyear
